import Mathlib

/-!
Verification of the zone cache subsystem of `external-dns-management`
(`pkg/dns/provider/zonecache.go`), shallowly embedded in Lean.

Modelling conventions:
- `time.Time` and `time.Duration` are modelled as `Nat` (nanoseconds); the Go
  zero time is `0`, and `t1.After t2` is `t2 < t1` (strict).
- Go maps are modelled as association lists observed through `lookupA`;
  map assignment is `insertA` and `delete` is `eraseA` (which removes every
  pair with the given key, matching map semantics).
- Mutexes are dropped: each exported operation is modelled as a pure function
  from the pre-state (plus the in-flight callback results and the wall-clock
  readings the Go code takes) to the post-state and returned values.
- The identity of a cache consumer (a `ZoneCache` pointer used as map key in
  Go) is modelled as a `Nat`.
-/

/-- Association-list lookup, the model of reading a Go map. -/
def lookupA {α β : Type} [DecidableEq α] (k : α) : List (α × β) → Option β
  | [] => none
  | (k', v) :: rest => if k' = k then some v else lookupA k rest

/-- Association-list key removal (removes every pair with key `k`), the model
of Go `delete(m, k)`. -/
def eraseA {α β : Type} [DecidableEq α] (k : α) : List (α × β) → List (α × β)
  | [] => []
  | (k', v) :: rest => if k' = k then eraseA k rest else (k', v) :: eraseA k rest

/-- Association-list insertion/replacement, the model of Go `m[k] = v`. -/
def insertA {α β : Type} [DecidableEq α] (k : α) (v : β) (l : List (α × β)) : List (α × β) :=
  (k, v) :: eraseA k l

/-- `dns.ZoneID`: composite key `{ProviderType, ID}`. -/
structure ZoneID where
  providerType : String
  ID : String
deriving DecidableEq

/-- A DNS record snapshot (`DNSZoneState`), modelled as a finite map from
record name to record data. The concrete record structure is irrelevant to
the cache logic. -/
def DNSZoneState : Type := List (String × String)

instance : DecidableEq DNSZoneState := by
  unfold DNSZoneState; exact inferInstance

/-- Modelled from the spec: `ChangeRequest` (defined outside the excerpted
source) is "a single atomic mutation (create/update/delete of a named
record)". -/
inductive ChangeRequest where
  | create (name value : String)
  | update (name value : String)
  | del (name : String)
deriving DecidableEq

/-- Modelled from the spec: the error taxonomy of §7 (the `errors` package is
outside the excerpted source). `alreadyBusyForOwner` is the
ownership-conflict error carrying its "claim created at" timestamp
(`AlreadyBusyForOwner.EntryCreatedAt`); `throttling` is the
throttling-classified transient error; `cloneNotFound` is the record store's
clone failure for an absent zone; `generic` is any other provider error. -/
inductive ProviderError where
  | throttling
  | alreadyBusyForOwner (entryCreatedAt : Nat)
  | cloneNotFound
  | generic
deriving DecidableEq

/-- Modelled from the spec: `errors.IsThrottlingError`, the
"throttling-classification predicate". -/
def IsThrottlingError (e : ProviderError) : Bool :=
  match e with
  | .throttling => true
  | _ => false

/-- Modelled from the spec: the effect of applying one `ChangeRequest` to a
snapshot in the Record Store ("incremental apply of a change"); an apply can
fail, e.g. creating an existing record or updating/deleting a missing one. -/
def applyChangeRequest (st : DNSZoneState) (req : ChangeRequest) : Option DNSZoneState :=
  match req with
  | .create n v => if lookupA n st = none then some (insertA n v st) else none
  | .update n v => if lookupA n st = none then none else some (insertA n v st)
  | .del n => if lookupA n st = none then none else some (eraseA n st)

/-- Sequential application of a change batch to a single snapshot, stopping
at the first failure: the reference denotation against which the write-through
loop is checked. -/
def applySeq (st : DNSZoneState) : List ChangeRequest → Option DNSZoneState
  | [] => some st
  | r :: rs =>
      match applyChangeRequest st r with
      | some st' => applySeq st' rs
      | none => none

/-- `zoneStateProxy`: per-zone refresh window timestamps (the mutex itself is
not modelled). -/
structure zoneStateProxy where
  lastUpdateStart : Nat
  lastUpdateEnd : Nat
deriving DecidableEq

/-- The zero-valued proxy a fresh `&zoneStateProxy{}` holds. -/
def zeroProxy : zoneStateProxy := ⟨0, 0⟩

/-- `zoneStates`: the shared zone-state manager. `inMemoryZones` is the
Record Store's per-zone snapshot map (the `InMemory` collaborator, modelled
from the spec as keyed storage with store/replace, clone-read, incremental
apply and delete-by-zone); `proxies`, `usedZones` and `forwardedDomains`
mirror the Go fields. -/
structure zoneStates where
  inMemoryZones : List (ZoneID × DNSZoneState)
  proxies : List (ZoneID × zoneStateProxy)
  usedZones : List (Nat × List ZoneID)
  forwardedDomains : List (ZoneID × List String)
deriving DecidableEq

namespace zoneStates

/-- `zoneStates.getProxy`: returns the zone's proxy, creating a zero-valued
one in the registry when absent. -/
def getProxy (s : zoneStates) (zoneID : ZoneID) : zoneStateProxy × zoneStates :=
  match lookupA zoneID s.proxies with
  | some p => (p, s)
  | none => (zeroProxy, { s with proxies := insertA zoneID zeroProxy s.proxies })

/-- The zone's refresh-window timestamps as the Go code observes them through
`getProxy` (a missing proxy reads as the zero value). -/
def proxyTimes (s : zoneStates) (zoneID : ZoneID) : zoneStateProxy :=
  (lookupA zoneID s.proxies).getD zeroProxy

/-- `zoneStates.cleanZoneState` (lower-case, the internal helper): deletes the
zone's Record Store entry and forwarded-domains entry and, when a proxy was
passed (`withProxy = true`), zeroes its timestamps. -/
def cleanZoneState (s : zoneStates) (zoneID : ZoneID) (withProxy : Bool) : zoneStates :=
  { s with
    inMemoryZones := eraseA zoneID s.inMemoryZones
    forwardedDomains := eraseA zoneID s.forwardedDomains
    proxies := if withProxy then insertA zoneID zeroProxy s.proxies else s.proxies }

/-- `zoneStates.CleanZoneState` (exported): fetches the proxy and cleans the
zone's state including the proxy timestamps. -/
def CleanZoneState (s : zoneStates) (zoneID : ZoneID) : zoneStates :=
  let s1 := (s.getProxy zoneID).2
  s1.cleanZoneState zoneID true

/-- Result of `zoneStates.GetZoneState`: the returned snapshot (if any), the
`cached` flag, the returned error (if any), and the post-state. -/
structure GetZoneStateResult where
  state : Option DNSZoneState
  cached : Bool
  err : Option ProviderError
  post : zoneStates
deriving DecidableEq

/-- `zoneStates.GetZoneState`. `tStart` is the `time.Now()` reading taken
before the TTL check, `tEnd` the one taken after the state updater returned;
`updater` is the state-updater callback's result for this call (it is only
consulted in the refresh branch). The Record Store's `CloneZoneState` is
modelled from the spec as clone-read: it returns the stored snapshot (a pure
value, so the clone is the value itself) or a clone-failure error when the
zone is absent. -/
def GetZoneState (s : zoneStates) (zoneID : ZoneID) (stateTTLGetter : ZoneID → Nat)
    (tStart tEnd : Nat) (updater : Except ProviderError DNSZoneState) :
    GetZoneStateResult :=
  let proxy := (s.getProxy zoneID).1
  let s1 := (s.getProxy zoneID).2
  let ttl := stateTTLGetter zoneID
  if proxy.lastUpdateEnd + ttl < tStart then
    match updater with
    | .ok state =>
        let s2 := { s1 with
          proxies := insertA zoneID ⟨tStart, tEnd⟩ s1.proxies
          inMemoryZones := insertA zoneID state s1.inMemoryZones }
        ⟨some state, false, none, s2⟩
    | .error e => ⟨none, false, some e, s1.cleanZoneState zoneID true⟩
  else
    match lookupA zoneID s1.inMemoryZones with
    | some st => ⟨some st, true, none, s1⟩
    | none => ⟨none, true, some .cloneNotFound, s1⟩

/-- `zoneStates.ReportZoneStateConflict`: returns whether the conflict
invalidated the zone, and the post-state. -/
def ReportZoneStateConflict (s : zoneStates) (zoneID : ZoneID) (err : ProviderError) :
    Bool × zoneStates :=
  let proxy := (s.getProxy zoneID).1
  let s1 := (s.getProxy zoneID).2
  if proxy.lastUpdateStart ≠ 0 then
    match err with
    | .alreadyBusyForOwner entryCreatedAt =>
        if proxy.lastUpdateStart < entryCreatedAt then
          (true, s1.cleanZoneState zoneID true)
        else (false, s1)
    | _ => (false, s1)
  else (false, s1)

/-- Modelled from the spec: the Record Store's `InMemory.Apply` — apply one
change to the stored snapshot of the zone, atomically (on failure the store
is unchanged); fails when the zone has no stored snapshot. -/
def inMemoryApply (mem : List (ZoneID × DNSZoneState)) (zoneID : ZoneID)
    (req : ChangeRequest) : Option (List (ZoneID × DNSZoneState)) :=
  match lookupA zoneID mem with
  | none => none
  | some st =>
      match applyChangeRequest st req with
      | some st' => some (insertA zoneID st' mem)
      | none => none

/-- The `for`-loop body of `zoneStates.ExecuteRequests`: apply the requests in
order, stopping at the first failure; returns the store after the applies and
whether a failure occurred. -/
def applyLoop (mem : List (ZoneID × DNSZoneState)) (zoneID : ZoneID) :
    List ChangeRequest → List (ZoneID × DNSZoneState) × Bool
  | [] => (mem, false)
  | req :: rest =>
      match inMemoryApply mem zoneID req with
      | some mem' => applyLoop mem' zoneID rest
      | none => (mem, true)

/-- `zoneStates.ExecuteRequests`: write-through apply of a change batch; any
failure invalidates the zone's full cached state. -/
def ExecuteRequests (s : zoneStates) (zoneID : ZoneID) (reqs : List ChangeRequest) :
    zoneStates :=
  let s1 := (s.getProxy zoneID).2
  let looped := applyLoop s1.inMemoryZones zoneID reqs
  let s2 := { s1 with inMemoryZones := looped.1 }
  if looped.2 then s2.cleanZoneState zoneID true else s2

/-- The union of all recorded consumer usage sets (`allUsed` in
`UpdateUsedZones`), as a list whose membership is the set. -/
def collectUsed (s : zoneStates) : List ZoneID :=
  s.usedZones.foldr (fun p acc => p.2 ++ acc) []

/-- The garbage-collection loop over the Record Store's zones: every stored
zone absent from `allUsed` has its state cleaned (with a `nil` proxy, so
proxy timestamps are not touched here). -/
def gcFold (allUsed : List ZoneID) (s : zoneStates) (keys : List ZoneID) : zoneStates :=
  List.foldl (fun acc z => if z ∈ allUsed then acc else acc.cleanZoneState z false) s keys

/-- The garbage-collection tail of `UpdateUsedZones`: recompute the union,
clean stored zones outside it, then drop proxies outside it. -/
def gcUnused (s : zoneStates) : zoneStates :=
  let allUsed := s.collectUsed
  let s1 := gcFold allUsed s (s.inMemoryZones.map Prod.fst)
  { s1 with proxies := s1.proxies.filter (fun p => decide (p.1 ∈ allUsed)) }

/-- `zoneStates.UpdateUsedZones`: record the consumer's sorted usage set
(no-op when unchanged; the record is deleted when the new set is empty) and
garbage-collect zones no longer used by anyone. -/
def UpdateUsedZones (s : zoneStates) (cache : Nat) (zoneids : List ZoneID) : zoneStates :=
  let oldids := (lookupA cache s.usedZones).getD []
  if zoneids = [] then
    if oldids = [] then s
    else gcUnused { s with usedZones := eraseA cache s.usedZones }
  else
    if oldids = zoneids then s
    else gcUnused { s with usedZones := insertA cache zoneids s.usedZones }

end zoneStates

/-- The comparator of `toSortedZoneIDs` (`strings.Compare` on `ProviderType`,
then on `ID`). -/
def zoneIDLess (a b : ZoneID) : Bool :=
  if a.providerType < b.providerType then true
  else if a.providerType = b.providerType then decide (a.ID < b.ID)
  else false

/-- Sorted insertion used to model `sort.Slice` in `toSortedZoneIDs`. -/
def insertSorted (z : ZoneID) : List ZoneID → List ZoneID
  | [] => [z]
  | y :: ys => if zoneIDLess z y then z :: y :: ys else y :: insertSorted z ys

/-- `toSortedZoneIDs`: the sorted list of zone ids of a hosted-zone list
(hosted zones are represented by their `ZoneID`, the only field the cache
reads); empty input yields `nil`. -/
def toSortedZoneIDs (zones : List ZoneID) : List ZoneID :=
  zones.foldr insertSorted []

/-- One nanosecond-denominated second (`time.Second`). -/
def second : Nat := 1000000000

/-- `defaultZoneCache`: the full-caching strategy's per-consumer state
(the `abstractZonesCache` zones-list fields plus the error backoff).
`consumerId` models the Go pointer identity used as `usedZones` key. -/
structure defaultZoneCache where
  zones : List ZoneID
  zonesErr : Option ProviderError
  zonesNext : Nat
  backoffOnError : Nat
  zonesTTL : Nat
  consumerId : Nat
deriving DecidableEq

namespace defaultZoneCache

/-- `defaultZoneCache.nextBackoff`: grow the error backoff by the factor
5/4 plus two seconds, capped at a quarter of the zones TTL; returns the new
backoff and the updated cache. -/
def nextBackoff (c : defaultZoneCache) : Nat × defaultZoneCache :=
  let next := c.backoffOnError * 5 / 4 + 2 * second
  let maxBackoff := c.zonesTTL / 4
  let next' := if maxBackoff < next then maxBackoff else next
  (next', { c with backoffOnError := next' })

/-- `defaultZoneCache.clearBackoff`. -/
def clearBackoff (c : defaultZoneCache) : defaultZoneCache :=
  { c with backoffOnError := 0 }

/-- Result of `defaultZoneCache.GetZones`: the returned list and error, the
post-states, how many times the zones updater was invoked in this call, and
how many cache-hit metric increments were recorded. -/
structure GetZonesResult where
  zones : List ZoneID
  err : Option ProviderError
  cache : defaultZoneCache
  states : zoneStates
  updaterCalls : Nat
  cachedMetric : Nat
deriving DecidableEq

/-- `defaultZoneCache.GetZones`. `tNow` is the `time.Now()` reading of the
TTL check, `tAfter` the `updateTime` reading taken after the updater
returned; `updList`/`updErr` are the zones-updater callback's results for
this call (consulted only in the refresh branch). -/
def GetZones (c : defaultZoneCache) (s : zoneStates) (tNow tAfter : Nat)
    (updList : List ZoneID) (updErr : Option ProviderError) : GetZonesResult :=
  if c.zonesNext < tNow then
    let c1 := { c with zones := updList, zonesErr := updErr }
    let c2 :=
      match updErr with
      | some _ =>
          let stepped := c1.nextBackoff
          { stepped.2 with zonesNext := tAfter + stepped.1 }
      | none =>
          { c1.clearBackoff with zonesNext := tAfter + c.zonesTTL }
    let s' := s.UpdateUsedZones c.consumerId (toSortedZoneIDs c2.zones)
    ⟨c2.zones, c2.zonesErr, c2, s', 1, 0⟩
  else
    ⟨c.zones, c.zonesErr, c, s, 0, 1⟩

/-- `defaultZoneCache.ApplyRequests`: on a successful prior provider write
the batch is applied write-through; on a throttling-classified prior error
nothing changes; on any other prior error the zone's cached state is
discarded. Returns the post-state and whether the cache-discard metric
(`AddZoneCacheDiscarding`) was emitted for the zone. -/
def ApplyRequests (_c : defaultZoneCache) (s : zoneStates) (priorErr : Option ProviderError)
    (zoneID : ZoneID) (reqs : List ChangeRequest) : zoneStates × Bool :=
  match priorErr with
  | none => (s.ExecuteRequests zoneID reqs, false)
  | some e =>
      if IsThrottlingError e then (s, false)
      else (s.CleanZoneState zoneID, true)

/-- `defaultZoneCache.Release`: report an empty usage set. -/
def Release (c : defaultZoneCache) (s : zoneStates) : zoneStates :=
  s.UpdateUsedZones c.consumerId []

end defaultZoneCache

/-! ### Association-list lemmas -/

theorem lookupA_eraseA_self {α β : Type} [DecidableEq α] (k : α) (l : List (α × β)) :
    lookupA k (eraseA k l) = none := by
  induction l with
  | nil => rfl
  | cons p rest ih =>
      obtain ⟨k', v⟩ := p
      by_cases h : k' = k
      · simp [eraseA, h, ih]
      · simp [eraseA, h, lookupA, ih]

theorem lookupA_eraseA_ne {α β : Type} [DecidableEq α] {k k' : α} (l : List (α × β))
    (h : k' ≠ k) : lookupA k (eraseA k' l) = lookupA k l := by
  induction l with
  | nil => rfl
  | cons p rest ih =>
      obtain ⟨a, v⟩ := p
      by_cases ha : a = k'
      · subst ha
        simp [eraseA, lookupA, h, ih]
      · simp [eraseA, lookupA, ha, ih]

theorem lookupA_insertA_self {α β : Type} [DecidableEq α] (k : α) (v : β) (l : List (α × β)) :
    lookupA k (insertA k v l) = some v := by
  simp [insertA, lookupA]

theorem lookupA_insertA_ne {α β : Type} [DecidableEq α] {k k' : α} (v : β) (l : List (α × β))
    (h : k' ≠ k) : lookupA k (insertA k' v l) = lookupA k l := by
  simp [insertA, lookupA, h]
  exact lookupA_eraseA_ne l h

theorem lookupA_none_of_not_mem_keys {α β : Type} [DecidableEq α] {k : α} {l : List (α × β)}
    (h : k ∉ l.map Prod.fst) : lookupA k l = none := by
  induction l with
  | nil => rfl
  | cons p rest ih =>
      simp only [List.map_cons, List.mem_cons] at h
      push_neg at h
      simp [lookupA, Ne.symm h.1]
      exact ih h.2

theorem lookupA_filter_mem {α β : Type} [DecidableEq α] (k : α) (l : List (α × β))
    (used : List α) :
    lookupA k (l.filter (fun p => decide (p.1 ∈ used))) =
      if k ∈ used then lookupA k l else none := by
  induction l with
  | nil => simp [lookupA]
  | cons p rest ih =>
      obtain ⟨a, v⟩ := p
      by_cases ha : a ∈ used
      · by_cases hk : a = k
        · subst hk
          simp [List.filter, ha, lookupA, ih]
        · simp [List.filter, ha, lookupA, hk, ih]
      · by_cases hk : a = k
        · subst hk
          simp [List.filter, ha, lookupA, ih]
        · simp [List.filter, ha, lookupA, hk, ih]

/-! ### Observations on `getProxy` and `cleanZoneState` -/

theorem getProxy_fst (s : zoneStates) (z : ZoneID) :
    (s.getProxy z).1 = s.proxyTimes z := by
  unfold zoneStates.getProxy zoneStates.proxyTimes
  cases h : lookupA z s.proxies <;> simp [h]

theorem getProxy_inMemoryZones (s : zoneStates) (z : ZoneID) :
    (s.getProxy z).2.inMemoryZones = s.inMemoryZones := by
  unfold zoneStates.getProxy
  cases h : lookupA z s.proxies <;> simp [h]

theorem getProxy_forwardedDomains (s : zoneStates) (z : ZoneID) :
    (s.getProxy z).2.forwardedDomains = s.forwardedDomains := by
  unfold zoneStates.getProxy
  cases h : lookupA z s.proxies <;> simp [h]

theorem getProxy_usedZones (s : zoneStates) (z : ZoneID) :
    (s.getProxy z).2.usedZones = s.usedZones := by
  unfold zoneStates.getProxy
  cases h : lookupA z s.proxies <;> simp [h]

theorem getProxy_proxyTimes (s : zoneStates) (z z' : ZoneID) :
    (s.getProxy z).2.proxyTimes z' = s.proxyTimes z' := by
  unfold zoneStates.getProxy zoneStates.proxyTimes
  cases h : lookupA z s.proxies with
  | some p => simp [h]
  | none =>
      by_cases hz : z = z'
      · subst hz
        simp [h, lookupA_insertA_self]
      · simp [lookupA_insertA_ne _ _ hz]

theorem cleanZoneState_inMemoryZones (s : zoneStates) (z : ZoneID) (w : Bool) :
    lookupA z (s.cleanZoneState z w).inMemoryZones = none := by
  simp [zoneStates.cleanZoneState, lookupA_eraseA_self]

theorem cleanZoneState_forwardedDomains (s : zoneStates) (z : ZoneID) (w : Bool) :
    lookupA z (s.cleanZoneState z w).forwardedDomains = none := by
  simp [zoneStates.cleanZoneState, lookupA_eraseA_self]

theorem cleanZoneState_proxyTimes (s : zoneStates) (z : ZoneID) :
    (s.cleanZoneState z true).proxyTimes z = zeroProxy := by
  simp [zoneStates.cleanZoneState, zoneStates.proxyTimes, lookupA_insertA_self]

theorem cleanZoneState_usedZones (s : zoneStates) (z : ZoneID) (w : Bool) :
    (s.cleanZoneState z w).usedZones = s.usedZones := by
  simp [zoneStates.cleanZoneState]

/-! ### Claim C1 -/

/-- C1: For every call to the shared zone-state manager's
`GetZoneState(zone)`: if the current time is not after
`lastUpdateEnd + TTL(zoneID)`, it returns a clone of the stored snapshot with
`wasCached = true` and leaves `lastUpdateStart` and `lastUpdateEnd` unchanged
(the snapshot staying stored); if the current time is after
`lastUpdateEnd + TTL(zoneID)` and the state-updater callback succeeds, it
stores the returned snapshot in the record store, sets `lastUpdateStart` to
the time taken before the callback and `lastUpdateEnd` to the time taken
after it, and returns the fresh snapshot with `wasCached = false`. -/
theorem GetZoneState_cached_and_fresh (s : zoneStates) (zoneID : ZoneID)
    (ttlG : ZoneID → Nat) (tStart tEnd : Nat) (upd : Except ProviderError DNSZoneState) :
    (∀ st, ¬ (s.proxyTimes zoneID).lastUpdateEnd + ttlG zoneID < tStart →
        lookupA zoneID s.inMemoryZones = some st →
        (s.GetZoneState zoneID ttlG tStart tEnd upd).state = some st ∧
        (s.GetZoneState zoneID ttlG tStart tEnd upd).cached = true ∧
        (s.GetZoneState zoneID ttlG tStart tEnd upd).err = none ∧
        (s.GetZoneState zoneID ttlG tStart tEnd upd).post.proxyTimes zoneID =
          s.proxyTimes zoneID ∧
        (s.GetZoneState zoneID ttlG tStart tEnd upd).post.inMemoryZones =
          s.inMemoryZones) ∧
    (∀ st, (s.proxyTimes zoneID).lastUpdateEnd + ttlG zoneID < tStart →
        upd = .ok st →
        (s.GetZoneState zoneID ttlG tStart tEnd upd).state = some st ∧
        (s.GetZoneState zoneID ttlG tStart tEnd upd).cached = false ∧
        (s.GetZoneState zoneID ttlG tStart tEnd upd).err = none ∧
        lookupA zoneID (s.GetZoneState zoneID ttlG tStart tEnd upd).post.inMemoryZones =
          some st ∧
        (s.GetZoneState zoneID ttlG tStart tEnd upd).post.proxyTimes zoneID =
          ⟨tStart, tEnd⟩) := by
  constructor
  · intro st httl hmem
    simp [zoneStates.GetZoneState, getProxy_fst, getProxy_inMemoryZones,
      if_neg httl, hmem, getProxy_proxyTimes]
  · intro st httl hupd
    subst hupd
    simp only [zoneStates.GetZoneState, getProxy_fst, if_pos httl]
    simp [zoneStates.proxyTimes, lookupA_insertA_self]

/-- Witness for C1 at a concrete state: zone `z` with refresh window `⟨2, 4⟩`
and a stored snapshot, TTL `10`. A call at time `9 ≤ 4 + 10` is a cache hit
leaving everything in place; a call at time `15 > 4 + 10` with a successful
updater stores the new snapshot and sets the window to `⟨15, 16⟩`. -/
theorem GetZoneState_cached_and_fresh_witness :
    (zoneStates.GetZoneState ⟨[(⟨"aws", "z1"⟩, [("a", "1")])],
        [(⟨"aws", "z1"⟩, ⟨2, 4⟩)], [], []⟩ ⟨"aws", "z1"⟩ (fun _ => 10) 9 11
        (.ok [("b", "2")])).cached = true ∧
    (zoneStates.GetZoneState ⟨[(⟨"aws", "z1"⟩, [("a", "1")])],
        [(⟨"aws", "z1"⟩, ⟨2, 4⟩)], [], []⟩ ⟨"aws", "z1"⟩ (fun _ => 10) 9 11
        (.ok [("b", "2")])).state = some [("a", "1")] ∧
    (zoneStates.GetZoneState ⟨[(⟨"aws", "z1"⟩, [("a", "1")])],
        [(⟨"aws", "z1"⟩, ⟨2, 4⟩)], [], []⟩ ⟨"aws", "z1"⟩ (fun _ => 10) 15 16
        (.ok [("b", "2")])).cached = false ∧
    (zoneStates.GetZoneState ⟨[(⟨"aws", "z1"⟩, [("a", "1")])],
        [(⟨"aws", "z1"⟩, ⟨2, 4⟩)], [], []⟩ ⟨"aws", "z1"⟩ (fun _ => 10) 15 16
        (.ok [("b", "2")])).post.proxyTimes ⟨"aws", "z1"⟩ = ⟨15, 16⟩ := by
  refine ⟨?_, ?_, ?_, ?_⟩
  · exact ((GetZoneState_cached_and_fresh ⟨[(⟨"aws", "z1"⟩, [("a", "1")])],
      [(⟨"aws", "z1"⟩, ⟨2, 4⟩)], [], []⟩ ⟨"aws", "z1"⟩ (fun _ => 10) 9 11
      (.ok [("b", "2")])).1 [("a", "1")] (by decide) (by decide)).2.1
  · exact ((GetZoneState_cached_and_fresh ⟨[(⟨"aws", "z1"⟩, [("a", "1")])],
      [(⟨"aws", "z1"⟩, ⟨2, 4⟩)], [], []⟩ ⟨"aws", "z1"⟩ (fun _ => 10) 9 11
      (.ok [("b", "2")])).1 [("a", "1")] (by decide) (by decide)).1
  · exact ((GetZoneState_cached_and_fresh ⟨[(⟨"aws", "z1"⟩, [("a", "1")])],
      [(⟨"aws", "z1"⟩, ⟨2, 4⟩)], [], []⟩ ⟨"aws", "z1"⟩ (fun _ => 10) 15 16
      (.ok [("b", "2")])).2 [("b", "2")] (by decide) rfl).2.1
  · exact ((GetZoneState_cached_and_fresh ⟨[(⟨"aws", "z1"⟩, [("a", "1")])],
      [(⟨"aws", "z1"⟩, ⟨2, 4⟩)], [], []⟩ ⟨"aws", "z1"⟩ (fun _ => 10) 15 16
      (.ok [("b", "2")])).2 [("b", "2")] (by decide) rfl).2.2.2.2

/-! ### Claim C7 -/

/-- C7: For every `GetZoneState` call whose TTL has expired and whose
state-updater callback returns an error, the zone's cached state is fully
cleaned (record store entry deleted, forwarded-domains entry deleted, both
proxy timestamps reset to zero) and the callback's error is propagated to the
caller unchanged. -/
theorem GetZoneState_error_cleans (s : zoneStates) (zoneID : ZoneID)
    (ttlG : ZoneID → Nat) (tStart tEnd : Nat) (e : ProviderError)
    (httl : (s.proxyTimes zoneID).lastUpdateEnd + ttlG zoneID < tStart) :
    (s.GetZoneState zoneID ttlG tStart tEnd (.error e)).err = some e ∧
    (s.GetZoneState zoneID ttlG tStart tEnd (.error e)).state = none ∧
    (s.GetZoneState zoneID ttlG tStart tEnd (.error e)).cached = false ∧
    lookupA zoneID (s.GetZoneState zoneID ttlG tStart tEnd (.error e)).post.inMemoryZones =
      none ∧
    lookupA zoneID (s.GetZoneState zoneID ttlG tStart tEnd (.error e)).post.forwardedDomains =
      none ∧
    (s.GetZoneState zoneID ttlG tStart tEnd (.error e)).post.proxyTimes zoneID = zeroProxy := by
  simp only [zoneStates.GetZoneState, getProxy_fst, if_pos httl]
  simp [cleanZoneState_inMemoryZones, cleanZoneState_forwardedDomains,
    cleanZoneState_proxyTimes]

/-- Witness for C7: a failing refresh at time `20` on a zone with window
`⟨2, 4⟩`, TTL `10` and a stored snapshot leaves no record-store entry, no
forwarded-domains entry, zeroed timestamps, and propagates the error. -/
theorem GetZoneState_error_cleans_witness :
    (zoneStates.GetZoneState ⟨[(⟨"aws", "z1"⟩, [("a", "1")])],
        [(⟨"aws", "z1"⟩, ⟨2, 4⟩)], [], [(⟨"aws", "z1"⟩, ["sub.example.org"])]⟩
        ⟨"aws", "z1"⟩ (fun _ => 10) 20 21 (.error .generic)).err = some .generic ∧
    lookupA ⟨"aws", "z1"⟩ (zoneStates.GetZoneState ⟨[(⟨"aws", "z1"⟩, [("a", "1")])],
        [(⟨"aws", "z1"⟩, ⟨2, 4⟩)], [], [(⟨"aws", "z1"⟩, ["sub.example.org"])]⟩
        ⟨"aws", "z1"⟩ (fun _ => 10) 20 21 (.error .generic)).post.inMemoryZones = none ∧
    (zoneStates.GetZoneState ⟨[(⟨"aws", "z1"⟩, [("a", "1")])],
        [(⟨"aws", "z1"⟩, ⟨2, 4⟩)], [], [(⟨"aws", "z1"⟩, ["sub.example.org"])]⟩
        ⟨"aws", "z1"⟩ (fun _ => 10) 20 21 (.error .generic)).post.proxyTimes ⟨"aws", "z1"⟩ =
      zeroProxy := by
  have h := GetZoneState_error_cleans ⟨[(⟨"aws", "z1"⟩, [("a", "1")])],
    [(⟨"aws", "z1"⟩, ⟨2, 4⟩)], [], [(⟨"aws", "z1"⟩, ["sub.example.org"])]⟩
    ⟨"aws", "z1"⟩ (fun _ => 10) 20 21 .generic (by decide)
  exact ⟨h.1, h.2.2.2.1, h.2.2.2.2.2⟩

/-! ### Claim C3 -/

/-- C3: `ReportZoneStateConflict(zone, err)` returns `true` and invalidates
the zone's cached state if and only if the zone's recorded `lastUpdateStart`
is non-zero, `err` is an ownership-conflict error carrying a claim-created-at
timestamp, and that claim timestamp is strictly after `lastUpdateStart`; in
every other case it returns `false` and leaves the cached state untouched. -/
theorem ReportZoneStateConflict_spec (s : zoneStates) (zoneID : ZoneID)
    (err : ProviderError) :
    ((s.ReportZoneStateConflict zoneID err).1 = true ↔
      (s.proxyTimes zoneID).lastUpdateStart ≠ 0 ∧
      ∃ t, err = .alreadyBusyForOwner t ∧ (s.proxyTimes zoneID).lastUpdateStart < t) ∧
    ((s.ReportZoneStateConflict zoneID err).1 = true →
      lookupA zoneID (s.ReportZoneStateConflict zoneID err).2.inMemoryZones = none ∧
      lookupA zoneID (s.ReportZoneStateConflict zoneID err).2.forwardedDomains = none ∧
      (s.ReportZoneStateConflict zoneID err).2.proxyTimes zoneID = zeroProxy) ∧
    ((s.ReportZoneStateConflict zoneID err).1 = false →
      (s.ReportZoneStateConflict zoneID err).2.inMemoryZones = s.inMemoryZones ∧
      (s.ReportZoneStateConflict zoneID err).2.forwardedDomains = s.forwardedDomains ∧
      ∀ z, (s.ReportZoneStateConflict zoneID err).2.proxyTimes z = s.proxyTimes z) := by
  simp only [zoneStates.ReportZoneStateConflict, getProxy_fst]
  by_cases h0 : (s.proxyTimes zoneID).lastUpdateStart ≠ 0
  · simp only [if_pos h0]
    cases err with
    | alreadyBusyForOwner t =>
        by_cases hlt : (s.proxyTimes zoneID).lastUpdateStart < t
        · simp [if_pos hlt, h0, hlt, cleanZoneState_inMemoryZones,
            cleanZoneState_forwardedDomains, cleanZoneState_proxyTimes]
        · simp [if_neg hlt, h0, hlt, getProxy_inMemoryZones,
            getProxy_forwardedDomains, getProxy_proxyTimes]
    | throttling =>
        simp [h0, getProxy_inMemoryZones, getProxy_forwardedDomains, getProxy_proxyTimes]
    | cloneNotFound =>
        simp [h0, getProxy_inMemoryZones, getProxy_forwardedDomains, getProxy_proxyTimes]
    | generic =>
        simp [h0, getProxy_inMemoryZones, getProxy_forwardedDomains, getProxy_proxyTimes]
  · simp only [if_neg h0]
    push_neg at h0
    simp [h0, getProxy_inMemoryZones, getProxy_forwardedDomains, getProxy_proxyTimes]

/-- Witness for C3: with window `⟨5, 9⟩`, a conflict created at `7` returns
`true` and cleans the zone (timestamps zeroed); a conflict created at `5`
returns `false`. (`7 > 5 = lastUpdateStart`, `5 ≤ 5`.) -/
theorem ReportZoneStateConflict_spec_witness :
    (zoneStates.ReportZoneStateConflict ⟨[(⟨"aws", "z1"⟩, [("a", "1")])],
        [(⟨"aws", "z1"⟩, ⟨5, 9⟩)], [], []⟩ ⟨"aws", "z1"⟩
        (.alreadyBusyForOwner 7)).1 = true ∧
    (zoneStates.ReportZoneStateConflict ⟨[(⟨"aws", "z1"⟩, [("a", "1")])],
        [(⟨"aws", "z1"⟩, ⟨5, 9⟩)], [], []⟩ ⟨"aws", "z1"⟩
        (.alreadyBusyForOwner 7)).2.proxyTimes ⟨"aws", "z1"⟩ = zeroProxy ∧
    (zoneStates.ReportZoneStateConflict ⟨[(⟨"aws", "z1"⟩, [("a", "1")])],
        [(⟨"aws", "z1"⟩, ⟨5, 9⟩)], [], []⟩ ⟨"aws", "z1"⟩
        (.alreadyBusyForOwner 5)).1 = false := by
  have h1 := ReportZoneStateConflict_spec ⟨[(⟨"aws", "z1"⟩, [("a", "1")])],
    [(⟨"aws", "z1"⟩, ⟨5, 9⟩)], [], []⟩ ⟨"aws", "z1"⟩ (.alreadyBusyForOwner 7)
  have h2 := ReportZoneStateConflict_spec ⟨[(⟨"aws", "z1"⟩, [("a", "1")])],
    [(⟨"aws", "z1"⟩, ⟨5, 9⟩)], [], []⟩ ⟨"aws", "z1"⟩ (.alreadyBusyForOwner 5)
  have ht : (zoneStates.ReportZoneStateConflict ⟨[(⟨"aws", "z1"⟩, [("a", "1")])],
      [(⟨"aws", "z1"⟩, ⟨5, 9⟩)], [], []⟩ ⟨"aws", "z1"⟩ (.alreadyBusyForOwner 7)).1 = true :=
    h1.1.mpr ⟨by decide, 7, rfl, by decide⟩
  have hf : (zoneStates.ReportZoneStateConflict ⟨[(⟨"aws", "z1"⟩, [("a", "1")])],
      [(⟨"aws", "z1"⟩, ⟨5, 9⟩)], [], []⟩ ⟨"aws", "z1"⟩ (.alreadyBusyForOwner 5)).1 = false := by
    cases hb : (zoneStates.ReportZoneStateConflict ⟨[(⟨"aws", "z1"⟩, [("a", "1")])],
        [(⟨"aws", "z1"⟩, ⟨5, 9⟩)], [], []⟩ ⟨"aws", "z1"⟩ (.alreadyBusyForOwner 5)).1 with
    | false => rfl
    | true =>
        obtain ⟨-, t, hteq, htlt⟩ := h2.1.mp hb
        cases hteq
        exact absurd htlt (by decide)
  exact ⟨ht, (h1.2.1 ht).2.2, hf⟩

/-! ### Claim C8 -/

/-- C8: `ApplyRequests` with a non-nil prior write error: a
throttling-classified error leaves the entire shared state unchanged and
emits no discard signal; any other error invalidates the zone's cached state
and emits the cache-discard signal. -/
theorem ApplyRequests_priorError_spec (c : defaultZoneCache) (s : zoneStates)
    (zoneID : ZoneID) (reqs : List ChangeRequest) (e : ProviderError) :
    (IsThrottlingError e = true →
      defaultZoneCache.ApplyRequests c s (some e) zoneID reqs = (s, false)) ∧
    (IsThrottlingError e = false →
      (defaultZoneCache.ApplyRequests c s (some e) zoneID reqs).2 = true ∧
      lookupA zoneID
        (defaultZoneCache.ApplyRequests c s (some e) zoneID reqs).1.inMemoryZones = none ∧
      lookupA zoneID
        (defaultZoneCache.ApplyRequests c s (some e) zoneID reqs).1.forwardedDomains = none ∧
      (defaultZoneCache.ApplyRequests c s (some e) zoneID reqs).1.proxyTimes zoneID =
        zeroProxy) := by
  constructor
  · intro h
    simp [defaultZoneCache.ApplyRequests, h]
  · intro h
    simp only [defaultZoneCache.ApplyRequests, h, Bool.false_eq_true, if_false]
    simp [zoneStates.CleanZoneState, cleanZoneState_inMemoryZones,
      cleanZoneState_forwardedDomains, cleanZoneState_proxyTimes]

/-- Witness for C8: a throttling prior error leaves the state exactly as it
was; a generic prior error wipes the zone's snapshot and signals a discard. -/
theorem ApplyRequests_priorError_spec_witness :
    defaultZoneCache.ApplyRequests ⟨[], none, 0, 0, 0, 0⟩
      ⟨[(⟨"aws", "z1"⟩, [("a", "1")])], [(⟨"aws", "z1"⟩, ⟨2, 4⟩)], [], []⟩
      (some .throttling) ⟨"aws", "z1"⟩ [] =
      (⟨[(⟨"aws", "z1"⟩, [("a", "1")])], [(⟨"aws", "z1"⟩, ⟨2, 4⟩)], [], []⟩, false) ∧
    (defaultZoneCache.ApplyRequests ⟨[], none, 0, 0, 0, 0⟩
      ⟨[(⟨"aws", "z1"⟩, [("a", "1")])], [(⟨"aws", "z1"⟩, ⟨2, 4⟩)], [], []⟩
      (some .generic) ⟨"aws", "z1"⟩ []).2 = true ∧
    lookupA ⟨"aws", "z1"⟩ (defaultZoneCache.ApplyRequests ⟨[], none, 0, 0, 0, 0⟩
      ⟨[(⟨"aws", "z1"⟩, [("a", "1")])], [(⟨"aws", "z1"⟩, ⟨2, 4⟩)], [], []⟩
      (some .generic) ⟨"aws", "z1"⟩ []).1.inMemoryZones = none := by
  have h1 := (ApplyRequests_priorError_spec ⟨[], none, 0, 0, 0, 0⟩
    ⟨[(⟨"aws", "z1"⟩, [("a", "1")])], [(⟨"aws", "z1"⟩, ⟨2, 4⟩)], [], []⟩
    ⟨"aws", "z1"⟩ [] .throttling).1 (by decide)
  have h2 := (ApplyRequests_priorError_spec ⟨[], none, 0, 0, 0, 0⟩
    ⟨[(⟨"aws", "z1"⟩, [("a", "1")])], [(⟨"aws", "z1"⟩, ⟨2, 4⟩)], [], []⟩
    ⟨"aws", "z1"⟩ [] .generic).2 (by decide)
  exact ⟨h1, h2.1, h2.2.1⟩

/-! ### Claim C2 -/

/-- The write-through loop tracked against the single-snapshot denotation:
starting from a store holding `st` for the zone, the loop fails exactly when
`applySeq st rs` fails, and on success the store holds `applySeq st rs`. -/
theorem applyLoop_lookup (zoneID : ZoneID) :
    ∀ (rs : List ChangeRequest) (mem : List (ZoneID × DNSZoneState)) (st : DNSZoneState),
      lookupA zoneID mem = some st →
      ((zoneStates.applyLoop mem zoneID rs).2 = (applySeq st rs).isNone ∧
        ∀ st', applySeq st rs = some st' →
          lookupA zoneID (zoneStates.applyLoop mem zoneID rs).1 = some st')
  | [], mem, st, h => by
      constructor
      · simp [zoneStates.applyLoop, applySeq]
      · intro st' h'
        simp only [applySeq, Option.some.injEq] at h'
        subst h'
        simpa [zoneStates.applyLoop] using h
  | r :: rs, mem, st, h => by
      cases hap : applyChangeRequest st r with
      | some st1 =>
          have ih := applyLoop_lookup zoneID rs (insertA zoneID st1 mem) st1
            (lookupA_insertA_self _ _ _)
          constructor
          · simpa [zoneStates.applyLoop, zoneStates.inMemoryApply, h, hap, applySeq]
              using ih.1
          · intro st' h'
            simp only [applySeq, hap] at h'
            simpa [zoneStates.applyLoop, zoneStates.inMemoryApply, h, hap]
              using ih.2 st' h'
      | none =>
          constructor
          · simp [zoneStates.applyLoop, zoneStates.inMemoryApply, h, hap, applySeq]
          · intro st' h'
            simp [applySeq, hap] at h'

/-- C2: `ApplyRequests` with `priorWriteErr == nil` applies the requests to
the cached zone record state sequentially in order; if all succeed the cached
snapshot reflects all changes in order (`applySeq`), and if any apply fails
the zone's entire cached state is invalidated (record store entry deleted,
forwarded-domains entry deleted, proxy timestamps zeroed) rather than left
partially updated. No discard metric is emitted on this path. -/
theorem ApplyRequests_writeThrough_spec (c : defaultZoneCache) (s : zoneStates)
    (zoneID : ZoneID) (reqs : List ChangeRequest) (st : DNSZoneState)
    (hmem : lookupA zoneID s.inMemoryZones = some st) :
    (∀ st', applySeq st reqs = some st' →
      lookupA zoneID
        (defaultZoneCache.ApplyRequests c s none zoneID reqs).1.inMemoryZones = some st') ∧
    (applySeq st reqs = none →
      lookupA zoneID
        (defaultZoneCache.ApplyRequests c s none zoneID reqs).1.inMemoryZones = none ∧
      lookupA zoneID
        (defaultZoneCache.ApplyRequests c s none zoneID reqs).1.forwardedDomains = none ∧
      (defaultZoneCache.ApplyRequests c s none zoneID reqs).1.proxyTimes zoneID =
        zeroProxy) := by
  have hmem1 : lookupA zoneID (s.getProxy zoneID).2.inMemoryZones = some st := by
    rw [getProxy_inMemoryZones]; exact hmem
  have hl := applyLoop_lookup zoneID reqs (s.getProxy zoneID).2.inMemoryZones st hmem1
  constructor
  · intro st' h'
    have hfail : (zoneStates.applyLoop (s.getProxy zoneID).2.inMemoryZones zoneID reqs).2 =
        false := by
      rw [hl.1, h']; rfl
    simp only [defaultZoneCache.ApplyRequests, zoneStates.ExecuteRequests, hfail,
      Bool.false_eq_true, if_false]
    exact hl.2 st' h'
  · intro h'
    have hfail : (zoneStates.applyLoop (s.getProxy zoneID).2.inMemoryZones zoneID reqs).2 =
        true := by
      rw [hl.1, h']; rfl
    simp only [defaultZoneCache.ApplyRequests, zoneStates.ExecuteRequests, hfail, if_true]
    exact ⟨cleanZoneState_inMemoryZones _ _ _, cleanZoneState_forwardedDomains _ _ _,
      cleanZoneState_proxyTimes _ _⟩

/-- Witness for C2: on a store holding `{a ↦ 1}` for the zone, applying
`[create b 2, update a 3]` succeeds and the cached snapshot reflects both
changes in order; applying `[create b 2, update c 9]` fails at the second
request and wipes the zone's cached state. -/
theorem ApplyRequests_writeThrough_spec_witness :
    lookupA ⟨"aws", "z1"⟩ (defaultZoneCache.ApplyRequests ⟨[], none, 0, 0, 0, 0⟩
      ⟨[(⟨"aws", "z1"⟩, [("a", "1")])], [(⟨"aws", "z1"⟩, ⟨2, 4⟩)], [], []⟩ none
      ⟨"aws", "z1"⟩ [.create "b" "2", .update "a" "3"]).1.inMemoryZones =
      some [("a", "3"), ("b", "2")] ∧
    lookupA ⟨"aws", "z1"⟩ (defaultZoneCache.ApplyRequests ⟨[], none, 0, 0, 0, 0⟩
      ⟨[(⟨"aws", "z1"⟩, [("a", "1")])], [(⟨"aws", "z1"⟩, ⟨2, 4⟩)], [], []⟩ none
      ⟨"aws", "z1"⟩ [.create "b" "2", .update "c" "9"]).1.inMemoryZones = none ∧
    (defaultZoneCache.ApplyRequests ⟨[], none, 0, 0, 0, 0⟩
      ⟨[(⟨"aws", "z1"⟩, [("a", "1")])], [(⟨"aws", "z1"⟩, ⟨2, 4⟩)], [], []⟩ none
      ⟨"aws", "z1"⟩ [.create "b" "2", .update "c" "9"]).1.proxyTimes ⟨"aws", "z1"⟩ =
      zeroProxy := by
  have h1 := (ApplyRequests_writeThrough_spec ⟨[], none, 0, 0, 0, 0⟩
    ⟨[(⟨"aws", "z1"⟩, [("a", "1")])], [(⟨"aws", "z1"⟩, ⟨2, 4⟩)], [], []⟩
    ⟨"aws", "z1"⟩ [.create "b" "2", .update "a" "3"] [("a", "1")] (by decide)).1
    [("a", "3"), ("b", "2")] (by decide)
  have h2 := (ApplyRequests_writeThrough_spec ⟨[], none, 0, 0, 0, 0⟩
    ⟨[(⟨"aws", "z1"⟩, [("a", "1")])], [(⟨"aws", "z1"⟩, ⟨2, 4⟩)], [], []⟩
    ⟨"aws", "z1"⟩ [.create "b" "2", .update "c" "9"] [("a", "1")] (by decide)).2
    (by decide)
  exact ⟨h1, h2.1, h2.2.2⟩

/-! ### Claim C5 -/

/-- C5: a `GetZones` call at a time not after the stored next-refresh
deadline does not consult the zones updater, returns the cached list and
error unchanged, and records one cache-hit metric; a call after the deadline
consults the updater exactly once and its result replaces the cached list and
error. -/
theorem GetZones_ttl_spec (c : defaultZoneCache) (s : zoneStates) (tNow tAfter : Nat)
    (updList : List ZoneID) (updErr : Option ProviderError) :
    (tNow ≤ c.zonesNext →
      defaultZoneCache.GetZones c s tNow tAfter updList updErr =
        ⟨c.zones, c.zonesErr, c, s, 0, 1⟩) ∧
    (c.zonesNext < tNow →
      (defaultZoneCache.GetZones c s tNow tAfter updList updErr).updaterCalls = 1 ∧
      (defaultZoneCache.GetZones c s tNow tAfter updList updErr).cachedMetric = 0 ∧
      (defaultZoneCache.GetZones c s tNow tAfter updList updErr).zones = updList ∧
      (defaultZoneCache.GetZones c s tNow tAfter updList updErr).err = updErr ∧
      (defaultZoneCache.GetZones c s tNow tAfter updList updErr).cache.zones = updList ∧
      (defaultZoneCache.GetZones c s tNow tAfter updList updErr).cache.zonesErr = updErr) := by
  constructor
  · intro h
    simp [defaultZoneCache.GetZones, Nat.not_lt.mpr h]
  · intro h
    cases updErr with
    | none =>
        simp [defaultZoneCache.GetZones, if_pos h, defaultZoneCache.clearBackoff]
    | some e =>
        simp [defaultZoneCache.GetZones, if_pos h, defaultZoneCache.nextBackoff]

/-- Witness for C5: with deadline `10`, a call at time `10` is a pure cache
hit; a call at time `11` invokes the updater once and installs its result. -/
theorem GetZones_ttl_spec_witness :
    defaultZoneCache.GetZones ⟨[⟨"aws", "z1"⟩], none, 10, 0, 40, 7⟩ ⟨[], [], [], []⟩
      10 12 [⟨"aws", "z2"⟩] none =
      ⟨[⟨"aws", "z1"⟩], none, ⟨[⟨"aws", "z1"⟩], none, 10, 0, 40, 7⟩, ⟨[], [], [], []⟩, 0, 1⟩ ∧
    (defaultZoneCache.GetZones ⟨[⟨"aws", "z1"⟩], none, 10, 0, 40, 7⟩ ⟨[], [], [], []⟩
      11 12 [⟨"aws", "z2"⟩] none).updaterCalls = 1 ∧
    (defaultZoneCache.GetZones ⟨[⟨"aws", "z1"⟩], none, 10, 0, 40, 7⟩ ⟨[], [], [], []⟩
      11 12 [⟨"aws", "z2"⟩] none).zones = [⟨"aws", "z2"⟩] := by
  have h1 := (GetZones_ttl_spec ⟨[⟨"aws", "z1"⟩], none, 10, 0, 40, 7⟩ ⟨[], [], [], []⟩
    10 12 [⟨"aws", "z2"⟩] none).1 (by decide)
  have h2 := (GetZones_ttl_spec ⟨[⟨"aws", "z1"⟩], none, 10, 0, 40, 7⟩ ⟨[], [], [], []⟩
    11 12 [⟨"aws", "z2"⟩] none).2 (by decide)
  exact ⟨h1, h2.1, h2.2.2.1⟩

/-! ### Claim C6 -/

/-- C6: on a failed zones refresh the backoff is updated to
`min(previousBackoff * 5/4 + 2s, zonesTTL/4)` and the deadline to the
post-call time plus that backoff; below the cap the backoff strictly
increases and never exceeds the cap, and at the cap it stays there; a
successful refresh resets the backoff to zero and sets the deadline to the
post-call time plus `zonesTTL`. -/
theorem GetZones_backoff_spec (c : defaultZoneCache) (s : zoneStates) (tNow tAfter : Nat)
    (updList : List ZoneID) (e : ProviderError) :
    (c.zonesNext < tNow →
      (defaultZoneCache.GetZones c s tNow tAfter updList (some e)).cache.backoffOnError =
        min (c.backoffOnError * 5 / 4 + 2 * second) (c.zonesTTL / 4) ∧
      (defaultZoneCache.GetZones c s tNow tAfter updList (some e)).cache.zonesNext =
        tAfter + min (c.backoffOnError * 5 / 4 + 2 * second) (c.zonesTTL / 4)) ∧
    (c.zonesNext < tNow →
      (defaultZoneCache.GetZones c s tNow tAfter updList none).cache.backoffOnError = 0 ∧
      (defaultZoneCache.GetZones c s tNow tAfter updList none).cache.zonesNext =
        tAfter + c.zonesTTL) ∧
    (c.backoffOnError < c.zonesTTL / 4 →
      c.backoffOnError < c.nextBackoff.1 ∧ c.nextBackoff.1 ≤ c.zonesTTL / 4) ∧
    (c.backoffOnError = c.zonesTTL / 4 → c.nextBackoff.1 = c.zonesTTL / 4) := by
  have hmin : (if c.zonesTTL / 4 < c.backoffOnError * 5 / 4 + 2 * second then c.zonesTTL / 4
      else c.backoffOnError * 5 / 4 + 2 * second) =
      min (c.backoffOnError * 5 / 4 + 2 * second) (c.zonesTTL / 4) := by
    rw [Nat.min_def]
    split_ifs <;> omega
  refine ⟨?_, ?_, ?_, ?_⟩
  · intro h
    simp only [defaultZoneCache.GetZones, if_pos h, defaultZoneCache.nextBackoff]
    exact ⟨hmin, by rw [hmin]⟩
  · intro h
    simp [defaultZoneCache.GetZones, if_pos h, defaultZoneCache.clearBackoff]
  · intro h
    simp only [defaultZoneCache.nextBackoff, second]
    constructor
    · split_ifs <;> omega
    · split_ifs <;> omega
  · intro h
    simp only [defaultZoneCache.nextBackoff, second]
    split_ifs <;> omega

/-- Witness for C6 with `zonesTTL = 12s`: a failure at zero backoff moves the
backoff to `2s` (`min(0*5/4 + 2s, 3s)`) with deadline `tAfter + 2s`; a
success resets it to zero with deadline `tAfter + 12s`; and from backoff `2s`
(below the `3s` cap) the next step strictly increases while staying at most
the cap. -/
theorem GetZones_backoff_spec_witness :
    (defaultZoneCache.GetZones ⟨[], none, 10, 0, 12000000000, 7⟩ ⟨[], [], [], []⟩
      11 20 [] (some .generic)).cache.backoffOnError =
      min (0 * 5 / 4 + 2 * second) (12000000000 / 4) ∧
    (defaultZoneCache.GetZones ⟨[], none, 10, 0, 12000000000, 7⟩ ⟨[], [], [], []⟩
      11 20 [] none).cache.backoffOnError = 0 ∧
    (defaultZoneCache.GetZones ⟨[], none, 10, 0, 12000000000, 7⟩ ⟨[], [], [], []⟩
      11 20 [] none).cache.zonesNext = 20 + 12000000000 ∧
    2000000000 < (defaultZoneCache.nextBackoff
      ⟨[], some .generic, 10, 2000000000, 12000000000, 7⟩).1 ∧
    (defaultZoneCache.nextBackoff ⟨[], some .generic, 10, 2000000000, 12000000000, 7⟩).1 ≤
      12000000000 / 4 := by
  have h1 := (GetZones_backoff_spec ⟨[], none, 10, 0, 12000000000, 7⟩ ⟨[], [], [], []⟩
    11 20 [] .generic).1 (by decide)
  have h2 := (GetZones_backoff_spec ⟨[], none, 10, 0, 12000000000, 7⟩ ⟨[], [], [], []⟩
    11 20 [] .generic).2.1 (by decide)
  have h3 := (GetZones_backoff_spec ⟨[], some .generic, 10, 2000000000, 12000000000, 7⟩
    ⟨[], [], [], []⟩ 11 20 [] .generic).2.2.1 (by decide)
  exact ⟨h1.1, h2.1, h2.2, h3.1, h3.2⟩

/-! ### Claim C10 -/

/-- The garbage-collection fold never touches the usage-set map. -/
theorem gcFold_usedZones (used keys : List ZoneID) :
    ∀ s : zoneStates, (zoneStates.gcFold used s keys).usedZones = s.usedZones := by
  induction keys with
  | nil => intro s; rfl
  | cons k ks ih =>
      intro s
      show (zoneStates.gcFold used
        (if k ∈ used then s else s.cleanZoneState k false) ks).usedZones = s.usedZones
      rw [ih]
      by_cases h : k ∈ used <;> simp [h, cleanZoneState_usedZones]

/-- `gcUnused` never touches the usage-set map. -/
theorem gcUnused_usedZones (s : zoneStates) : (s.gcUnused).usedZones = s.usedZones := by
  unfold zoneStates.gcUnused
  simp only []
  rw [gcFold_usedZones]

/-- `UpdateUsedZones` with an empty set is a no-op when the consumer has no
recorded (nonempty) usage set. -/
theorem UpdateUsedZones_empty_noop (s : zoneStates) (cache : Nat)
    (h : (lookupA cache s.usedZones).getD [] = []) :
    s.UpdateUsedZones cache [] = s := by
  simp [zoneStates.UpdateUsedZones, h]

/-- C10: `Release()` is idempotent: with no recorded usage set (never
reported, or already released) it returns immediately without modifying
anything, hence releasing twice equals releasing once. -/
theorem Release_idempotent (c : defaultZoneCache) (s : zoneStates) :
    ((lookupA c.consumerId s.usedZones).getD [] = [] →
      defaultZoneCache.Release c s = s) ∧
    defaultZoneCache.Release c (defaultZoneCache.Release c s) =
      defaultZoneCache.Release c s := by
  constructor
  · intro h
    exact UpdateUsedZones_empty_noop s c.consumerId h
  · apply UpdateUsedZones_empty_noop
    by_cases h : (lookupA c.consumerId s.usedZones).getD [] = []
    · show (lookupA c.consumerId (zoneStates.UpdateUsedZones s c.consumerId []).usedZones).getD
        [] = []
      rw [UpdateUsedZones_empty_noop s c.consumerId h]
      exact h
    · show (lookupA c.consumerId (zoneStates.UpdateUsedZones s c.consumerId []).usedZones).getD
        [] = []
      simp [zoneStates.UpdateUsedZones, h, gcUnused_usedZones, lookupA_eraseA_self]

/-- Witness for C10: a consumer with no recorded set releases as a no-op, and
double release equals single release on a consumer that did record zones. -/
theorem Release_idempotent_witness :
    defaultZoneCache.Release ⟨[], none, 0, 0, 0, 7⟩
      ⟨[], [], [(3, [⟨"aws", "z9"⟩])], []⟩ = ⟨[], [], [(3, [⟨"aws", "z9"⟩])], []⟩ ∧
    defaultZoneCache.Release ⟨[], none, 0, 0, 0, 7⟩
      (defaultZoneCache.Release ⟨[], none, 0, 0, 0, 7⟩
        ⟨[(⟨"aws", "z1"⟩, [("a", "1")])], [], [(7, [⟨"aws", "z1"⟩])], []⟩) =
      defaultZoneCache.Release ⟨[], none, 0, 0, 0, 7⟩
        ⟨[(⟨"aws", "z1"⟩, [("a", "1")])], [], [(7, [⟨"aws", "z1"⟩])], []⟩ := by
  constructor
  · exact (Release_idempotent ⟨[], none, 0, 0, 0, 7⟩
      ⟨[], [], [(3, [⟨"aws", "z9"⟩])], []⟩).1 (by decide)
  · exact (Release_idempotent ⟨[], none, 0, 0, 0, 7⟩
      ⟨[(⟨"aws", "z1"⟩, [("a", "1")])], [], [(7, [⟨"aws", "z1"⟩])], []⟩).2

/-! ### Claim C4 -/

theorem mem_keys_of_lookupA_some {α β : Type} [DecidableEq α] {k : α} {l : List (α × β)}
    {v : β} (h : lookupA k l = some v) : k ∈ l.map Prod.fst := by
  induction l with
  | nil => simp [lookupA] at h
  | cons p rest ih =>
      obtain ⟨a, w⟩ := p
      by_cases ha : a = k
      · subst ha
        simp
      · simp only [lookupA, if_neg ha] at h
        simp [ih h]

/-- Record-store lookups after the garbage-collection fold: a zone iterated
over and not in the retained set reads as absent; any other zone reads as
before. -/
theorem gcFold_inMemoryZones (used : List ZoneID) (keys : List ZoneID) :
    ∀ (s : zoneStates) (z : ZoneID),
      lookupA z (zoneStates.gcFold used s keys).inMemoryZones =
        if z ∈ keys ∧ z ∉ used then none else lookupA z s.inMemoryZones := by
  induction keys with
  | nil => intro s z; simp [zoneStates.gcFold]
  | cons k ks ih =>
      intro s z
      show lookupA z (zoneStates.gcFold used
        (if k ∈ used then s else s.cleanZoneState k false) ks).inMemoryZones = _
      rw [ih]
      by_cases hk : k ∈ used
      · rw [if_pos hk]
        by_cases hz : z ∈ ks ∧ z ∉ used
        · simp [hz]
        · rw [if_neg hz]
          by_cases hzk : z = k
          · subst hzk
            simp [hk]
          · simp only [List.mem_cons]
            rw [if_neg]
            intro hcon
            exact hz ⟨hcon.1.resolve_left hzk, hcon.2⟩
      · rw [if_neg hk]
        by_cases hzk : z = k
        · subst hzk
          simp [zoneStates.cleanZoneState, lookupA_eraseA_self, hk]
        · have herase : lookupA z (s.cleanZoneState k false).inMemoryZones =
              lookupA z s.inMemoryZones := by
            simp [zoneStates.cleanZoneState, lookupA_eraseA_ne _ (fun h => hzk h.symm)]
          rw [herase]
          simp only [List.mem_cons]
          by_cases hz : z ∈ ks ∧ z ∉ used
          · rw [if_pos hz, if_pos ⟨Or.inr hz.1, hz.2⟩]
          · rw [if_neg hz, if_neg]
            intro hcon
            exact hz ⟨hcon.1.resolve_left hzk, hcon.2⟩

/-- Forwarded-domains lookups after the garbage-collection fold, same shape
as for the record store. -/
theorem gcFold_forwardedDomains (used : List ZoneID) (keys : List ZoneID) :
    ∀ (s : zoneStates) (z : ZoneID),
      lookupA z (zoneStates.gcFold used s keys).forwardedDomains =
        if z ∈ keys ∧ z ∉ used then none else lookupA z s.forwardedDomains := by
  induction keys with
  | nil => intro s z; simp [zoneStates.gcFold]
  | cons k ks ih =>
      intro s z
      show lookupA z (zoneStates.gcFold used
        (if k ∈ used then s else s.cleanZoneState k false) ks).forwardedDomains = _
      rw [ih]
      by_cases hk : k ∈ used
      · rw [if_pos hk]
        by_cases hz : z ∈ ks ∧ z ∉ used
        · simp [hz]
        · rw [if_neg hz]
          by_cases hzk : z = k
          · subst hzk
            simp [hk]
          · simp only [List.mem_cons]
            rw [if_neg]
            intro hcon
            exact hz ⟨hcon.1.resolve_left hzk, hcon.2⟩
      · rw [if_neg hk]
        by_cases hzk : z = k
        · subst hzk
          simp [zoneStates.cleanZoneState, lookupA_eraseA_self, hk]
        · have herase : lookupA z (s.cleanZoneState k false).forwardedDomains =
              lookupA z s.forwardedDomains := by
            simp [zoneStates.cleanZoneState, lookupA_eraseA_ne _ (fun h => hzk h.symm)]
          rw [herase]
          simp only [List.mem_cons]
          by_cases hz : z ∈ ks ∧ z ∉ used
          · rw [if_pos hz, if_pos ⟨Or.inr hz.1, hz.2⟩]
          · rw [if_neg hz, if_neg]
            intro hcon
            exact hz ⟨hcon.1.resolve_left hzk, hcon.2⟩

/-- The garbage-collection fold never touches the proxy registry (it cleans
with a `nil` proxy). -/
theorem gcFold_proxies (used keys : List ZoneID) :
    ∀ s : zoneStates, (zoneStates.gcFold used s keys).proxies = s.proxies := by
  induction keys with
  | nil => intro s; rfl
  | cons k ks ih =>
      intro s
      show (zoneStates.gcFold used
        (if k ∈ used then s else s.cleanZoneState k false) ks).proxies = s.proxies
      rw [ih]
      by_cases h : k ∈ used <;> simp [h, zoneStates.cleanZoneState]

/-- Record-store lookups after `gcUnused`: zones in the retained union read
as before, all others as absent. -/
theorem gcUnused_inMemoryZones (s : zoneStates) (z : ZoneID) :
    lookupA z (s.gcUnused).inMemoryZones =
      if z ∈ s.collectUsed then lookupA z s.inMemoryZones else none := by
  unfold zoneStates.gcUnused
  simp only []
  rw [gcFold_inMemoryZones]
  by_cases hz : z ∈ s.collectUsed
  · simp [hz]
  · by_cases hk : z ∈ s.inMemoryZones.map Prod.fst
    · simp [hz, hk]
    · simp [hz, hk, lookupA_none_of_not_mem_keys hk]

/-- Forwarded-domains lookups after `gcUnused`: the entry is removed exactly
for zones that were in the record store and are outside the retained union. -/
theorem gcUnused_forwardedDomains (s : zoneStates) (z : ZoneID) :
    lookupA z (s.gcUnused).forwardedDomains =
      if z ∈ s.inMemoryZones.map Prod.fst ∧ z ∉ s.collectUsed then none
      else lookupA z s.forwardedDomains := by
  unfold zoneStates.gcUnused
  simp only []
  rw [gcFold_forwardedDomains]

/-- Proxy-registry lookups after `gcUnused`: proxies of zones outside the
retained union are dropped, the rest are untouched. -/
theorem gcUnused_proxies (s : zoneStates) (z : ZoneID) :
    lookupA z (s.gcUnused).proxies =
      if z ∈ s.collectUsed then lookupA z s.proxies else none := by
  unfold zoneStates.gcUnused
  simp only []
  rw [lookupA_filter_mem, gcFold_proxies]

/-- Counterexample to C4 as stated: in a state where zone `z1` is present in
the proxy registry and the forwarded-domains cache but not in the record
store, a non-fast-path `UpdateUsedZones` whose recomputed union excludes `z1`
removes `z1`'s proxy but does not remove its forwarded-domains entry,
contradicting the claim that every zone present in the record store or proxy
registry but absent from the union has its forwarded-domains entry removed. -/
theorem UpdateUsedZones_gc_counterexample :
    (⟨"aws", "z1"⟩ : ZoneID) ∉
      (zoneStates.UpdateUsedZones ⟨[], [(⟨"aws", "z1"⟩, zeroProxy)], [],
        [(⟨"aws", "z1"⟩, ["sub.example.org"])]⟩ 7 [⟨"aws", "z2"⟩]).collectUsed ∧
    lookupA ⟨"aws", "z1"⟩
      (zoneStates.UpdateUsedZones ⟨[], [(⟨"aws", "z1"⟩, zeroProxy)], [],
        [(⟨"aws", "z1"⟩, ["sub.example.org"])]⟩ 7 [⟨"aws", "z2"⟩]).proxies = none ∧
    ¬ lookupA ⟨"aws", "z1"⟩
      (zoneStates.UpdateUsedZones ⟨[], [(⟨"aws", "z1"⟩, zeroProxy)], [],
        [(⟨"aws", "z1"⟩, ["sub.example.org"])]⟩ 7 [⟨"aws", "z2"⟩]).forwardedDomains =
      none := by
  decide

theorem lookupA_eq_none_iff_not_mem_keys {α β : Type} [DecidableEq α] (k : α)
    (l : List (α × β)) : lookupA k l = none ↔ k ∉ l.map Prod.fst := by
  constructor
  · intro h hmem
    induction l with
    | nil => simp at hmem
    | cons p rest ih =>
        obtain ⟨a, v⟩ := p
        by_cases ha : a = k
        · simp [lookupA, ha] at h
        · simp only [lookupA, if_neg ha] at h
          simp only [List.map_cons, List.mem_cons] at hmem
          exact ih h (hmem.resolve_left (fun hh => ha hh.symm))
  · exact lookupA_none_of_not_mem_keys

/-- `gcUnused` preserves the recomputed union (it only shrinks the store, the
forwarded-domains cache and the proxy registry). -/
theorem gcUnused_collectUsed (s : zoneStates) :
    (s.gcUnused).collectUsed = s.collectUsed := by
  unfold zoneStates.collectUsed
  rw [gcUnused_usedZones]

/-- C4 (amended): if the new set equals the previously recorded set for the
consumer (including both empty) the call is a no-op; otherwise the
per-consumer record is updated (deleted when the new set is empty) and, with
respect to the recomputed union of all recorded sets: every zone absent from
the union loses its record-store entry and its proxy-registry entry; its
forwarded-domains entry is removed when the zone was in the record store but
is left untouched when it was not; and every zone in the union keeps its
record-store entry, forwarded-domains entry and proxy unchanged. -/
theorem UpdateUsedZones_gc_spec (s : zoneStates) (cache : Nat) (zoneids : List ZoneID) :
    ((lookupA cache s.usedZones).getD [] = zoneids →
      s.UpdateUsedZones cache zoneids = s) ∧
    ((lookupA cache s.usedZones).getD [] ≠ zoneids →
      lookupA cache (s.UpdateUsedZones cache zoneids).usedZones =
        (if zoneids = [] then none else some zoneids) ∧
      (∀ z, z ∉ (s.UpdateUsedZones cache zoneids).collectUsed →
        lookupA z (s.UpdateUsedZones cache zoneids).inMemoryZones = none ∧
        lookupA z (s.UpdateUsedZones cache zoneids).proxies = none ∧
        (lookupA z s.inMemoryZones = none →
          lookupA z (s.UpdateUsedZones cache zoneids).forwardedDomains =
            lookupA z s.forwardedDomains) ∧
        (lookupA z s.inMemoryZones ≠ none →
          lookupA z (s.UpdateUsedZones cache zoneids).forwardedDomains = none)) ∧
      (∀ z, z ∈ (s.UpdateUsedZones cache zoneids).collectUsed →
        lookupA z (s.UpdateUsedZones cache zoneids).inMemoryZones =
          lookupA z s.inMemoryZones ∧
        lookupA z (s.UpdateUsedZones cache zoneids).forwardedDomains =
          lookupA z s.forwardedDomains ∧
        lookupA z (s.UpdateUsedZones cache zoneids).proxies =
          lookupA z s.proxies)) := by
  constructor
  · intro h
    by_cases hz : zoneids = []
    · subst hz
      simp [zoneStates.UpdateUsedZones, h]
    · simp [zoneStates.UpdateUsedZones, hz, h]
  · intro h
    have hred : s.UpdateUsedZones cache zoneids =
        zoneStates.gcUnused { s with usedZones := (if zoneids = [] then
          eraseA cache s.usedZones else insertA cache zoneids s.usedZones) } := by
      by_cases hz : zoneids = []
      · subst hz
        simp [zoneStates.UpdateUsedZones, h]
      · simp [zoneStates.UpdateUsedZones, hz, h]
    rw [hred]
    set s' : zoneStates := { s with usedZones := (if zoneids = [] then
      eraseA cache s.usedZones else insertA cache zoneids s.usedZones) } with hs'
    refine ⟨?_, ?_, ?_⟩
    · rw [gcUnused_usedZones]
      by_cases hz : zoneids = []
      · simp [hs', hz, lookupA_eraseA_self]
      · simp [hs', hz, lookupA_insertA_self]
    · intro z hzu
      rw [gcUnused_collectUsed] at hzu
      refine ⟨?_, ?_, ?_, ?_⟩
      · rw [gcUnused_inMemoryZones, if_neg hzu]
      · rw [gcUnused_proxies, if_neg hzu]
      · intro hnone
        rw [gcUnused_forwardedDomains, if_neg]
        intro hcon
        rw [show s'.inMemoryZones = s.inMemoryZones from rfl] at hcon
        exact (lookupA_eq_none_iff_not_mem_keys z s.inMemoryZones).mp hnone hcon.1
      · intro hsome
        rw [gcUnused_forwardedDomains, if_pos]
        constructor
        · show z ∈ s.inMemoryZones.map Prod.fst
          cases hlk : lookupA z s.inMemoryZones with
          | none => exact absurd hlk hsome
          | some v => exact mem_keys_of_lookupA_some hlk
        · exact hzu
    · intro z hzu
      rw [gcUnused_collectUsed] at hzu
      refine ⟨?_, ?_, ?_⟩
      · rw [gcUnused_inMemoryZones, if_pos hzu]
      · rw [gcUnused_forwardedDomains, if_neg]
        intro hcon
        exact hcon.2 hzu
      · rw [gcUnused_proxies, if_pos hzu]


/-- Witness for C4: consumers `1 ↦ {z1,z2}` and `2 ↦ {z2,z3}`; consumer `1`
reports the empty set (release). The retained union becomes `{z2,z3}`:
consumer `1`'s record is deleted, `z1`'s record-store entry, proxy and
forwarded-domains entry are all removed, and `z2`'s record-store entry is
untouched. -/
theorem UpdateUsedZones_gc_spec_witness :
    lookupA 1 (zoneStates.UpdateUsedZones ⟨[(⟨"aws", "z1"⟩, [("a", "1")]), (⟨"aws", "z2"⟩, [("b", "2")]),
      (⟨"aws", "z3"⟩, [("c", "3")])],
      [(⟨"aws", "z1"⟩, ⟨1, 2⟩), (⟨"aws", "z2"⟩, ⟨3, 4⟩), (⟨"aws", "z3"⟩, ⟨5, 6⟩)],
      [(1, [⟨"aws", "z1"⟩, ⟨"aws", "z2"⟩]), (2, [⟨"aws", "z2"⟩, ⟨"aws", "z3"⟩])],
      [(⟨"aws", "z1"⟩, ["d1"]), (⟨"aws", "z2"⟩, ["d2"])]⟩ 1 []).usedZones = none ∧
    lookupA ⟨"aws", "z1"⟩ (zoneStates.UpdateUsedZones ⟨[(⟨"aws", "z1"⟩, [("a", "1")]), (⟨"aws", "z2"⟩, [("b", "2")]),
      (⟨"aws", "z3"⟩, [("c", "3")])],
      [(⟨"aws", "z1"⟩, ⟨1, 2⟩), (⟨"aws", "z2"⟩, ⟨3, 4⟩), (⟨"aws", "z3"⟩, ⟨5, 6⟩)],
      [(1, [⟨"aws", "z1"⟩, ⟨"aws", "z2"⟩]), (2, [⟨"aws", "z2"⟩, ⟨"aws", "z3"⟩])],
      [(⟨"aws", "z1"⟩, ["d1"]), (⟨"aws", "z2"⟩, ["d2"])]⟩ 1 []).inMemoryZones = none ∧
    lookupA ⟨"aws", "z1"⟩ (zoneStates.UpdateUsedZones ⟨[(⟨"aws", "z1"⟩, [("a", "1")]), (⟨"aws", "z2"⟩, [("b", "2")]),
      (⟨"aws", "z3"⟩, [("c", "3")])],
      [(⟨"aws", "z1"⟩, ⟨1, 2⟩), (⟨"aws", "z2"⟩, ⟨3, 4⟩), (⟨"aws", "z3"⟩, ⟨5, 6⟩)],
      [(1, [⟨"aws", "z1"⟩, ⟨"aws", "z2"⟩]), (2, [⟨"aws", "z2"⟩, ⟨"aws", "z3"⟩])],
      [(⟨"aws", "z1"⟩, ["d1"]), (⟨"aws", "z2"⟩, ["d2"])]⟩ 1 []).proxies = none ∧
    lookupA ⟨"aws", "z1"⟩ (zoneStates.UpdateUsedZones ⟨[(⟨"aws", "z1"⟩, [("a", "1")]), (⟨"aws", "z2"⟩, [("b", "2")]),
      (⟨"aws", "z3"⟩, [("c", "3")])],
      [(⟨"aws", "z1"⟩, ⟨1, 2⟩), (⟨"aws", "z2"⟩, ⟨3, 4⟩), (⟨"aws", "z3"⟩, ⟨5, 6⟩)],
      [(1, [⟨"aws", "z1"⟩, ⟨"aws", "z2"⟩]), (2, [⟨"aws", "z2"⟩, ⟨"aws", "z3"⟩])],
      [(⟨"aws", "z1"⟩, ["d1"]), (⟨"aws", "z2"⟩, ["d2"])]⟩ 1 []).forwardedDomains = none ∧
    lookupA ⟨"aws", "z2"⟩ (zoneStates.UpdateUsedZones ⟨[(⟨"aws", "z1"⟩, [("a", "1")]), (⟨"aws", "z2"⟩, [("b", "2")]),
      (⟨"aws", "z3"⟩, [("c", "3")])],
      [(⟨"aws", "z1"⟩, ⟨1, 2⟩), (⟨"aws", "z2"⟩, ⟨3, 4⟩), (⟨"aws", "z3"⟩, ⟨5, 6⟩)],
      [(1, [⟨"aws", "z1"⟩, ⟨"aws", "z2"⟩]), (2, [⟨"aws", "z2"⟩, ⟨"aws", "z3"⟩])],
      [(⟨"aws", "z1"⟩, ["d1"]), (⟨"aws", "z2"⟩, ["d2"])]⟩ 1 []).inMemoryZones =
      lookupA ⟨"aws", "z2"⟩ (⟨[(⟨"aws", "z1"⟩, [("a", "1")]), (⟨"aws", "z2"⟩, [("b", "2")]),
      (⟨"aws", "z3"⟩, [("c", "3")])],
      [(⟨"aws", "z1"⟩, ⟨1, 2⟩), (⟨"aws", "z2"⟩, ⟨3, 4⟩), (⟨"aws", "z3"⟩, ⟨5, 6⟩)],
      [(1, [⟨"aws", "z1"⟩, ⟨"aws", "z2"⟩]), (2, [⟨"aws", "z2"⟩, ⟨"aws", "z3"⟩])],
      [(⟨"aws", "z1"⟩, ["d1"]), (⟨"aws", "z2"⟩, ["d2"])]⟩ : zoneStates).inMemoryZones := by
  have h := (UpdateUsedZones_gc_spec ⟨[(⟨"aws", "z1"⟩, [("a", "1")]), (⟨"aws", "z2"⟩, [("b", "2")]),
      (⟨"aws", "z3"⟩, [("c", "3")])],
      [(⟨"aws", "z1"⟩, ⟨1, 2⟩), (⟨"aws", "z2"⟩, ⟨3, 4⟩), (⟨"aws", "z3"⟩, ⟨5, 6⟩)],
      [(1, [⟨"aws", "z1"⟩, ⟨"aws", "z2"⟩]), (2, [⟨"aws", "z2"⟩, ⟨"aws", "z3"⟩])],
      [(⟨"aws", "z1"⟩, ["d1"]), (⟨"aws", "z2"⟩, ["d2"])]⟩ 1 []).2 (by decide)
  have hout := h.2.1 ⟨"aws", "z1"⟩ (by decide)
  have hin := h.2.2 ⟨"aws", "z2"⟩ (by decide)
  exact ⟨by simpa using h.1, hout.1, hout.2.1, hout.2.2.2 (by decide), hin.1⟩
